import Mathlib

/-!
Verification development for the `pc-h5-react-demo` repository.

The development shallowly embeds the repository's SSR pipeline:
the Express server entry (`server/index.js`), the HTML template
(`server/template.js`), the shared React component tree
(`shared/App.jsx` and its pages), the client hydration entry
(`client/index.jsx`) and the Next.js `/api/hello` route handlers.

Strings are modelled as `List Char`.  External library primitives
(`ReactDOMServer.renderToString`, React Router matching, `JSON.parse`,
`URLSearchParams`, `document.getElementById`) are modelled explicitly,
as documented on each definition.
-/

set_option maxRecDepth 1000000
set_option maxHeartbeats 8000000

namespace SSRDemo

/-! ### Generic string machinery (substring counting and searching) -/

/-- Shorthand: the character list of a string literal. -/
def str (s : String) : List Char := s.data

/-- Whitespace predicate used by JavaScript `String.prototype.trim`
(restricted to the whitespace characters that actually occur here). -/
def isWS (c : Char) : Bool := c == ' ' || c == '\n' || c == '\t' || c == '\r'

/-- Model of JavaScript `String.prototype.trim`. -/
def jsTrim (s : List Char) : List Char :=
  ((s.dropWhile isWS).reverse.dropWhile isWS).reverse

/-- `isPre pat s` is true iff `pat` is a prefix of `s`. -/
def isPre : List Char → List Char → Bool
  | [], _ => true
  | _ :: _, [] => false
  | a :: as, b :: bs => if a = b then isPre as bs else false

/-- Number of (possibly overlapping) occurrences of `pat` in `s`:
the number of positions of `s` at which `pat` is a prefix of the
corresponding suffix. -/
def countSub (pat : List Char) : List Char → Nat
  | [] => 0
  | c :: rest => (if isPre pat (c :: rest) then 1 else 0) + countSub pat rest

/-- Occurrences of `pat` that start inside `a` when `a` is followed by `b`. -/
def countIn (pat b : List Char) : List Char → Nat
  | [] => 0
  | c :: rest => (if isPre pat (c :: rest ++ b) then 1 else 0) + countIn pat b rest

/-- Split `s` at the first occurrence of `pat`: returns the part before
the occurrence and the part after it. -/
def firstSplit (pat : List Char) : List Char → Option (List Char × List Char)
  | [] => none
  | c :: rest =>
    if isPre pat (c :: rest) then some ([], List.drop pat.length (c :: rest))
    else
      match firstSplit pat rest with
      | some (p, q) => some (c :: p, q)
      | none => none

/-- The text strictly between the first occurrence of `openTag` and the
next following occurrence of `closeTag`. -/
def betweenFirst (openTag closeTag s : List Char) : Option (List Char) :=
  (firstSplit openTag s).bind (fun pr => (firstSplit closeTag pr.2).map (fun vw => vw.1))

/-- First `k` characters of the concatenation of a list of chunks. -/
def takeK (k : Nat) : List (List Char) → List Char
  | [] => []
  | c :: cs => if k ≤ c.length then c.take k else c ++ takeK (k - c.length) cs

/-- Occurrence count of `pat` over a chunked string, computed chunk by
chunk so that each step only scans one chunk plus a small look-ahead
window. -/
def chunkCount (pat : List Char) : List (List Char) → Nat
  | [] => 0
  | c :: cs => countSub pat (c ++ takeK (pat.length - 1) cs) + chunkCount pat cs

/-! ### HTML tree model and the string renderer

`Html` is the abstract element tree produced by the JSX of the shared
components (attributes already in DOM form: `className` → `class`,
style objects serialised).  `renderHtml` models
`ReactDOMServer.renderToString` on such trees: elements are emitted as
tags with double-quoted attribute values, and text is HTML-escaped
exactly as React escapes it (`&`, `<`, `>`, `"`, `'`). -/

inductive Html where
  | elem (tag : String) (attrs : List (String × String)) (children : List Html)
  | text (s : String)

/-- React text escaping (`escapeTextForBrowser`). -/
def escapeChar (c : Char) : List Char :=
  if c = '&' then str "&amp;"
  else if c = '<' then str "&lt;"
  else if c = '>' then str "&gt;"
  else if c = '"' then str "&quot;"
  else if c = Char.ofNat 39 then str "&#x27;"
  else [c]

/-- HTML-escape a character list. -/
def escape (s : List Char) : List Char := (s.map escapeChar).flatten

/-- Serialise one opening tag with its attributes. -/
def openTagChunk (tag : String) (attrs : List (String × String)) : List Char :=
  str "<" ++ tag.data ++
    (attrs.map (fun a => str " " ++ a.1.data ++ str "=\"" ++ escape a.2.data ++ str "\"")).flatten ++
    str ">"

/-- Serialise one closing tag. -/
def closeTagChunk (tag : String) : List Char := str "</" ++ tag.data ++ str ">"

mutual

/-- The rendered output of a tree, as a list of small chunks (in order). -/
def renderChunks : Html → List (List Char)
  | .text s => [escape s.data]
  | .elem tag attrs children =>
    openTagChunk tag attrs :: renderChunksList children ++ [closeTagChunk tag]

/-- Chunks of a list of sibling trees. -/
def renderChunksList : List Html → List (List Char)
  | [] => []
  | h :: t => renderChunks h ++ renderChunksList t

end

/-- Model of `ReactDOMServer.renderToString`: the flat markup string of
a tree. -/
def renderHtml (t : Html) : List Char := (renderChunks t).flatten

/-! ### Shared components (`react_ssr/src/shared`)

Each tree is the initial render of the corresponding JSX component:
`useState` initial values are used, `useEffect` does not run, event
handler props are not serialised, `className` becomes `class`, style
objects are given in serialised DOM form, and React Router `Link`
renders as an anchor with `href`.  JSX text is given with Babel's
whitespace semantics (lines of one text run joined by single spaces). -/

/-- Navigation entries of `Header.jsx` (`navItems`). -/
def headerNavItems : List (String × String) :=
  [("/", "首页"), ("/about", "关于"), ("/counter", "计数器")]

/-- `shared/components/Header.jsx` at a given router pathname
(`useLocation().pathname`); `isActive` compares the pathname with the
entry path. -/
def headerTree (pathname : List Char) : Html :=
  .elem "header" [("class", "header")] [
    .elem "h1" [("class", "header__title")] [.text "🚀 React SSR 教学演示"],
    .elem "nav" [("class", "header__nav")]
      (headerNavItems.map (fun item =>
        .elem "a"
          [("class", "header__nav-link " ++
              (if pathname = str item.1 then "header__nav-link--active" else "")),
           ("href", item.1)]
          [.text item.2]))]

/-- `shared/components/Footer.jsx`. -/
def footerTree : Html :=
  .elem "footer" [("class", "footer")] [
    .elem "p" [("class", "footer__text")] [
      .text "© 2024 ",
      .elem "span" [("class", "footer__highlight")] [.text "React SSR 教学项目"]],
    .elem "p" [("class", "footer__text")] [.text "演示 React 18 同构渲染核心原理"]]

/-- `shared/pages/Home.jsx`: initial state `renderEnv = 'server'`. -/
def homeTree : Html :=
  let renderEnv : String := "server"
  .elem "div" [("class", "page")] [
    .elem "div" [("class", "ssr-indicator ssr-indicator--" ++ renderEnv)] [
      .text (if renderEnv = "server" then "🖥️ SSR 渲染" else "🌐 客户端已水合")],
    .elem "div" [("class", "page__card")] [
      .elem "h2" [("class", "page__title")] [.text "👋 欢迎来到 React SSR 教学项目"],
      .elem "p" [("class", "page__text")] [
        .text "这是一个手动实现的 React 同构渲染演示项目， 帮助你深入理解 SSR 的核心原理。"]],
    .elem "div" [("class", "page__card")] [
      .elem "h3" [("class", "page__subtitle")] [.text "🤔 什么是 SSR（服务端渲染）？"],
      .elem "p" [("class", "page__text")] [
        .text "SSR 是指在服务器端将 React 组件渲染成 HTML 字符串， 然后发送给浏览器。浏览器收到后直接显示内容， 再由 React 在客户端\"水合\"（hydrate）这些 HTML，使其变得可交互。"],
      .elem "div" [("class", "code-block")] [
        .elem "pre" [("class", "code-block__text")] [
          .elem "span" [("class", "code-block__comment")] [.text "// 服务端渲染流程"],
          .text "\n",
          .elem "span" [("class", "code-block__keyword")] [.text "const"],
          .text " html = ReactDOMServer.",
          .elem "span" [("class", "code-block__keyword")] [.text "renderToString"],
          .text "(", .text "<App />", .text ")", .text "\n",
          .elem "span" [("class", "code-block__comment")] [.text "// 返回给浏览器的 HTML 包含完整内容"]]]],
    .elem "div" [("class", "page__card")] [
      .elem "h3" [("class", "page__subtitle")] [.text "✨ SSR 的优势"],
      .elem "ul" [("class", "list")] [
        .elem "li" [("class", "list__item")] [.text "首屏加载更快 - 无需等待 JS 执行"],
        .elem "li" [("class", "list__item")] [.text "SEO 友好 - 搜索引擎可以抓取完整内容"],
        .elem "li" [("class", "list__item")] [.text "更好的用户体验 - 减少白屏时间"],
        .elem "li" [("class", "list__item")] [.text "社交分享友好 - 支持 OG 标签预览"]]],
    .elem "div" [("class", "page__card")] [
      .elem "h3" [("class", "page__subtitle")] [.text "🔑 核心概念"],
      .elem "p" [("class", "page__text")] [.elem "strong" [] [.text "1. renderToString()"]],
      .elem "p" [("class", "page__text")] [.text "将 React 组件树转换为 HTML 字符串，在服务端执行。"],
      .elem "p" [("class", "page__text")] [.elem "strong" [] [.text "2. hydrateRoot()"]],
      .elem "p" [("class", "page__text")] [.text "在客户端\"水合\"服务端渲染的 HTML，绑定事件处理器，使页面可交互。"],
      .elem "p" [("class", "page__text")] [.elem "strong" [] [.text "3. 同构代码"]],
      .elem "p" [("class", "page__text")] [.text "同一套代码在服务端和客户端都能运行，需要注意避免在服务端使用浏览器 API。"]],
    .elem "div" [("class", "page__card")] [
      .elem "h3" [("class", "page__subtitle")] [.text "⚠️ 同构开发注意事项"],
      .elem "ul" [("class", "list")] [
        .elem "li" [("class", "list__item")] [.text "避免在组件顶层使用 window/document"],
        .elem "li" [("class", "list__item")] [.text "将浏览器 API 调用放在 useEffect 中"],
        .elem "li" [("class", "list__item")] [.text "服务端和客户端的初始渲染结果必须一致"],
        .elem "li" [("class", "list__item")] [.text "使用环境判断：typeof window !== \x27undefined\x27"]]]]

/-- `shared/pages/About.jsx`: initial state `hydrated = false`,
`renderTime = '计算中...'`. -/
def aboutTree : Html :=
  let hydrated : Bool := false
  let renderTime : String := "计算中..."
  .elem "div" [("class", "page")] [
    .elem "div" [("class", "page__card")] [
      .elem "h2" [("class", "page__title")] [.text "📖 SSR 完整流程详解"],
      .elem "p" [("class", "page__text")] [
        .text "理解 SSR 的工作流程是掌握同构开发的关键。 下面让我们一步步拆解整个过程。"]],
    .elem "div" [("class", "page__card")] [
      .elem "h3" [("class", "page__subtitle")] [.text "🔹 步骤 1：服务端渲染"],
      .elem "p" [("class", "page__text")] [.text "当用户访问页面时，服务端执行以下操作："],
      .elem "div" [("class", "code-block")] [
        .elem "pre" [("class", "code-block__text")] [
          .elem "span" [("class", "code-block__comment")] [.text "// server/index.js"],
          .text "\n",
          .elem "span" [("class", "code-block__keyword")] [.text "import"],
          .text " ReactDOMServer ",
          .elem "span" [("class", "code-block__keyword")] [.text "from"],
          .text " ",
          .elem "span" [("class", "code-block__string")] [.text "\x27react-dom/server\x27"],
          .text ";", .text "\n",
          .elem "span" [("class", "code-block__keyword")] [.text "import"],
          .text " App ",
          .elem "span" [("class", "code-block__keyword")] [.text "from"],
          .text " ",
          .elem "span" [("class", "code-block__string")] [.text "\x27../shared/App\x27"],
          .text ";", .text "\n\n",
          .elem "span" [("class", "code-block__comment")] [.text "// 将 React 组件渲染为 HTML 字符串"],
          .text "\n",
          .elem "span" [("class", "code-block__keyword")] [.text "const"],
          .text " html = ReactDOMServer.",
          .elem "span" [("class", "code-block__keyword")] [.text "renderToString"],
          .text "(", .text "<App />", .text ")", .text "\n\n",
          .elem "span" [("class", "code-block__comment")] [.text "// html 内容示例："],
          .text "\n",
          .elem "span" [("class", "code-block__comment")] [
            .text "// ",
            .text "<div class=\"app\"><header>...</header></div>"]]],
      .elem "ul" [("class", "list")] [
        .elem "li" [("class", "list__item")] [.text "执行组件函数，获取虚拟 DOM"],
        .elem "li" [("class", "list__item")] [.text "将虚拟 DOM 转换为 HTML 字符串"],
        .elem "li" [("class", "list__item")] [.text "useState 初始值会被使用"],
        .elem "li" [("class", "list__item")] [.text "useEffect 不会执行"]]],
    .elem "div" [("class", "page__card")] [
      .elem "h3" [("class", "page__subtitle")] [.text "🔹 步骤 2：嵌入 HTML 模板"],
      .elem "p" [("class", "page__text")] [.text "服务端将渲染结果嵌入到 HTML 模板中："],
      .elem "div" [("class", "code-block")] [
        .elem "pre" [("class", "code-block__text")] [
          .elem "span" [("class", "code-block__comment")] [.text "<!-- HTML 模板 -->"],
          .text "\n",
          .elem "span" [("class", "code-block__keyword")] [.text "<!DOCTYPE html>"],
          .text "\n",
          .elem "span" [("class", "code-block__string")] [.text "<html>"],
          .text "\n",
          .elem "span" [("class", "code-block__string")] [.text "<head>"],
          .text "\n",
          .text "  ",
          .elem "span" [("class", "code-block__string")] [.text "<link rel=\"stylesheet\" href=\"/styles.css\">"],
          .text "\n",
          .elem "span" [("class", "code-block__string")] [.text "</head>"],
          .text "\n",
          .elem "span" [("class", "code-block__string")] [.text "<body>"],
          .text "\n",
          .text "  ",
          .elem "span" [("class", "code-block__comment")] [.text "<!-- 服务端渲染的内容注入这里 -->"],
          .text "\n",
          .text "  ",
          .elem "span" [("class", "code-block__string")] [.text "<div id=\"root\">"],
          .text "$\x7bhtml\x7d",
          .elem "span" [("class", "code-block__string")] [.text "</div>"],
          .text "\n",
          .text "  ",
          .elem "span" [("class", "code-block__comment")] [.text "<!-- 客户端 JS 用于水合 -->"],
          .text "\n",
          .text "  ",
          .elem "span" [("class", "code-block__string")] [.text "<script src=\"/bundle.js\"></script>"],
          .text "\n",
          .elem "span" [("class", "code-block__string")] [.text "</body>"],
          .text "\n",
          .elem "span" [("class", "code-block__string")] [.text "</html>"]]],
      .elem "ul" [("class", "list")] [
        .elem "li" [("class", "list__item")] [.text "HTML 包含完整的页面内容"],
        .elem "li" [("class", "list__item")] [.text "CSS 可以立即应用样式"],
        .elem "li" [("class", "list__item")] [.text "JS bundle 用于后续水合"]]],
    .elem "div" [("class", "page__card")] [
      .elem "h3" [("class", "page__subtitle")] [.text "🔹 步骤 3：客户端水合"],
      .elem "p" [("class", "page__text")] [.text "浏览器加载 JS 后，React 进行\"水合\"操作："],
      .elem "div" [("class", "code-block")] [
        .elem "pre" [("class", "code-block__text")] [
          .elem "span" [("class", "code-block__comment")] [.text "// client/index.jsx"],
          .text "\n",
          .elem "span" [("class", "code-block__keyword")] [.text "import"],
          .text " ",
          .text "\x7b hydrateRoot \x7d",
          .text " ",
          .elem "span" [("class", "code-block__keyword")] [.text "from"],
          .text " ",
          .elem "span" [("class", "code-block__string")] [.text "\x27react-dom/client\x27"],
          .text ";", .text "\n",
          .elem "span" [("class", "code-block__keyword")] [.text "import"],
          .text " App ",
          .elem "span" [("class", "code-block__keyword")] [.text "from"],
          .text " ",
          .elem "span" [("class", "code-block__string")] [.text "\x27../shared/App\x27"],
          .text ";", .text "\n\n",
          .elem "span" [("class", "code-block__comment")] [.text "// 水合：复用服务端渲染的 DOM"],
          .text "\n",
          .elem "span" [("class", "code-block__comment")] [.text "// 不会重新创建 DOM，只绑定事件"],
          .text "\n",
          .text "hydrateRoot(", .text "\n",
          .text "  ", .text "document.getElementById(",
          .elem "span" [("class", "code-block__string")] [.text "\x27root\x27"],
          .text "),", .text "\n",
          .text "  ", .text "<App />", .text "\n",
          .text ");"]],
      .elem "ul" [("class", "list")] [
        .elem "li" [("class", "list__item")] [.text "对比服务端 HTML 和客户端渲染结果"],
        .elem "li" [("class", "list__item")] [.text "复用已有 DOM，不重新创建"],
        .elem "li" [("class", "list__item")] [.text "绑定事件处理器"],
        .elem "li" [("class", "list__item")] [.text "执行 useEffect"],
        .elem "li" [("class", "list__item")] [.text "页面变得完全可交互"]]],
    .elem "div" [("class", "page__card")] [
      .elem "h3" [("class", "page__subtitle")] [.text "🧪 水合状态演示"],
      .elem "p" [("class", "page__text")] [.text "下面的状态可以帮助你理解水合时机："],
      .elem "div" [("class", "list")] [
        .elem "div" [("class", "list__item")] [
          .text "水合状态：",
          .elem "strong" [] [.text (if hydrated then "✅ 已水合" else "⏳ 未水合")]],
        .elem "div" [("class", "list__item")] [
          .text "水合时间：",
          .elem "strong" [] [.text renderTime]]],
      .elem "p" [("class", "page__text"), ("style", "margin-top:2.67vw;font-size:3.2vw;color:#888")] [
        .text "💡 提示：如果你看到\"已水合\"，说明客户端 JS 已经执行完成。 刷新页面后，你可能会短暂看到\"未水合\"状态。"]],
    .elem "div" [("class", "page__card")] [
      .elem "h3" [("class", "page__subtitle")] [.text "📚 扩展：渲染 API 对比"],
      .elem "p" [("class", "page__text")] [.elem "strong" [] [.text "renderToString()"]],
      .elem "ul" [("class", "list")] [
        .elem "li" [("class", "list__item")] [.text "同步渲染，一次性返回完整 HTML"],
        .elem "li" [("class", "list__item")] [.text "简单易用，适合教学和小型项目"],
        .elem "li" [("class", "list__item")] [.text "不支持 Suspense 流式传输"]],
      .elem "p" [("class", "page__text"), ("style", "margin-top:2.67vw")] [
        .elem "strong" [] [.text "renderToPipeableStream()"]],
      .elem "ul" [("class", "list")] [
        .elem "li" [("class", "list__item")] [.text "React 18 新增的流式渲染 API"],
        .elem "li" [("class", "list__item")] [.text "支持 Suspense 和流式传输"],
        .elem "li" [("class", "list__item")] [.text "可以更早地发送 HTML 给浏览器"],
        .elem "li" [("class", "list__item")] [.text "更好的性能，适合生产环境"]]]]

/-- `shared/pages/Counter.jsx`: initial state `count = 0`,
`isHydrated = false`, `clickHistory = []`. -/
def counterTree : Html :=
  let count : Nat := 0
  let isHydrated : Bool := false
  let clickHistory : List String := []
  .elem "div" [("class", "page")] [
    .elem "div" [("class", "page__card")] [
      .elem "h2" [("class", "page__title")] [.text "🎮 交互功能演示"],
      .elem "p" [("class", "page__text")] [
        .text "这个计数器演示了 SSR 和水合的关系。 服务端渲染的 HTML 显示初始值，但无法交互。 水合完成后，按钮才能响应点击。"],
      .elem "div" [("class", "list__item"),
          ("style", "text-align:center;background:" ++
            (if isHydrated then
              "linear-gradient(135deg, rgba(79, 172, 254, 0.2) 0%, rgba(0, 242, 254, 0.2) 100%)"
            else
              "linear-gradient(135deg, rgba(240, 147, 251, 0.2) 0%, rgba(245, 87, 108, 0.2) 100%)"))] [
        .text (if isHydrated then "✅ 已水合 - 可以交互" else "⏳ 等待水合 - 暂不可交互")]],
    .elem "div" [("class", "page__card")] [
      .elem "h3" [("class", "page__subtitle")] [.text "计数器"],
      .elem "div" [("class", "counter")] [
        .elem "button" [("class", "counter__btn"), ("aria-label", "减少")] [.text "−"],
        .elem "span" [("class", "counter__value")] [.text (toString count)],
        .elem "button" [("class", "counter__btn"), ("aria-label", "增加")] [.text "+"]],
      .elem "div" [("style", "text-align:center;margin-top:2.67vw")] [
        .elem "button" [("class", "btn btn--secondary")] [.text "重置"]]],
    .elem "div" [("class", "page__card")] [
      .elem "h3" [("class", "page__subtitle")] [.text "📝 操作记录"],
      (if clickHistory.length > 0 then
        .elem "ul" [("class", "list")]
          (clickHistory.map (fun record => .elem "li" [("class", "list__item")] [.text record]))
      else
        .elem "p" [("class", "page__text"), ("style", "text-align:center;color:#888")] [
          .text "还没有操作记录，点击按钮试试吧！"])],
    .elem "div" [("class", "page__card")] [
      .elem "h3" [("class", "page__subtitle")] [.text "💡 为什么需要水合？"],
      .elem "p" [("class", "page__text")] [.elem "strong" [] [.text "服务端渲染只生成 HTML"]],
      .elem "div" [("class", "code-block")] [
        .elem "pre" [("class", "code-block__text")] [
          .elem "span" [("class", "code-block__comment")] [.text "<!-- 服务端返回的 HTML -->"],
          .text "\n",
          .elem "span" [("class", "code-block__string")] [.text "<button class=\"counter__btn\">"],
          .text "+",
          .elem "span" [("class", "code-block__string")] [.text "</button>"],
          .text "\n",
          .elem "span" [("class", "code-block__comment")] [.text "<!-- 注意：没有 onclick 属性！ -->"]]],
      .elem "p" [("class", "page__text")] [
        .text "服务端生成的 HTML 只是静态内容，没有事件处理器。 这是因为："],
      .elem "ul" [("class", "list")] [
        .elem "li" [("class", "list__item")] [.text "HTML 无法直接包含 JavaScript 函数引用"],
        .elem "li" [("class", "list__item")] [.text "React 的事件系统依赖于虚拟 DOM"],
        .elem "li" [("class", "list__item")] [.text "需要 JavaScript 运行时来处理事件"]],
      .elem "p" [("class", "page__text"), ("style", "margin-top:2.67vw")] [
        .elem "strong" [] [.text "水合过程绑定事件"]],
      .elem "div" [("class", "code-block")] [
        .elem "pre" [("class", "code-block__text")] [
          .elem "span" [("class", "code-block__comment")] [.text "// 水合时 React 做的事情"],
          .text "\n",
          .elem "span" [("class", "code-block__comment")] [.text "// 1. 找到已存在的 DOM 节点"],
          .text "\n",
          .elem "span" [("class", "code-block__keyword")] [.text "const"],
          .text " button = document.querySelector(",
          .elem "span" [("class", "code-block__string")] [.text "\x27.counter__btn\x27"],
          .text ");", .text "\n\n",
          .elem "span" [("class", "code-block__comment")] [.text "// 2. 绑定事件处理器"],
          .text "\n",
          .text "button.addEventListener(",
          .elem "span" [("class", "code-block__string")] [.text "\x27click\x27"],
          .text ", increment);", .text "\n\n",
          .elem "span" [("class", "code-block__comment")] [.text "// 现在按钮可以响应点击了！"]]]],
    .elem "div" [("class", "page__card")] [
      .elem "h3" [("class", "page__subtitle")] [.text "🔄 SSR vs CSR 首屏对比"],
      .elem "p" [("class", "page__text")] [.elem "strong" [] [.text "SSR（服务端渲染）"]],
      .elem "ul" [("class", "list")] [
        .elem "li" [("class", "list__item")] [.text "用户立即看到内容（HTML 已包含）"],
        .elem "li" [("class", "list__item")] [.text "等待 JS 加载和水合后可交互"],
        .elem "li" [("class", "list__item")] [.text "首屏时间 = HTML 加载时间"]],
      .elem "p" [("class", "page__text"), ("style", "margin-top:2.67vw")] [
        .elem "strong" [] [.text "CSR（客户端渲染）"]],
      .elem "ul" [("class", "list")] [
        .elem "li" [("class", "list__item")] [.text "用户先看到空白或 loading"],
        .elem "li" [("class", "list__item")] [.text "等待 JS 加载、执行、渲染后显示"],
        .elem "li" [("class", "list__item")] [.text "首屏时间 = JS 加载 + 执行 + 渲染时间"]]]]

/-- The `NotFound` component of `shared/App.jsx`. -/
def notFoundTree : Html :=
  .elem "div" [("class", "page")] [
    .elem "div" [("class", "page__card"), ("style", "text-align:center")] [
      .elem "h2" [("class", "page__title")] [.text "😅 404"],
      .elem "p" [("class", "page__text")] [.text "页面不存在"]]]

/-! ### Routing and the `App` component -/

/-- The outcome of matching a pathname against the `Routes` table of
`shared/App.jsx` (`/`, `/about`, `/counter`, `*`). -/
inductive PageRoute where
  | home | about | counter | notFound
deriving Repr, DecidableEq

/-- Models React Router v6 matching of the four configured route
patterns of `shared/App.jsx` against a pathname; `*` is the fallback. -/
def matchRoute (pathname : List Char) : PageRoute :=
  if pathname = str "/" then .home
  else if pathname = str "/about" then .about
  else if pathname = str "/counter" then .counter
  else .notFound

/-- `shared/App.jsx` at a given router pathname: header, routed main
content, footer. -/
def appTree (pathname : List Char) : Html :=
  .elem "div" [("class", "app")] [
    headerTree pathname,
    .elem "main" [] [
      match matchRoute pathname with
      | .home => homeTree
      | .about => aboutTree
      | .counter => counterTree
      | .notFound => notFoundTree],
    footerTree]

/-- Models URL parsing (as done by the routers): the pathname part of a
URL, before any query string or fragment. -/
def parsePathname (url : List Char) : List Char :=
  url.takeWhile (fun c => !(c == '?' || c == '#'))

/-- The markup produced on the server (`server/index.js`):
`ReactDOMServer.renderToString` of the `StaticRouter`-wrapped `App`,
where `StaticRouter` receives `location = req.url` and provides the
parsed pathname as router location. -/
def serverRenderMarkup (url : List Char) : List Char :=
  renderHtml (appTree (parsePathname url))

/-- The markup of the initial client render (`client/index.jsx`):
`hydrateRoot` of the `BrowserRouter`-wrapped `App`, where
`BrowserRouter` provides `window.location.pathname` as router
location. -/
def clientRenderMarkup (pathname : List Char) : List Char :=
  renderHtml (appTree pathname)

/-! ### HTML template (`server/template.js`)

`renderTemplate` is the JavaScript template literal of
`renderTemplate({ appHtml, title = 'React SSR Demo' })`, split at its
three interpolation holes (`title` twice via the `og:title` meta and
the `<title>` element, then `appHtml` inside the mount-point `div`,
then `new Date().toISOString()` in the debug comment, here the
parameter `now`), followed by `.trim()`.  The fixed text is split into
chunks purely for proof locality; their concatenation is exactly the
literal. -/

def tplHead0a : List Char := ("<!DOCTYPE html>\n<html lang=\"zh-CN\">\n<head>\n  <!--\n    【Meta 标签说明】\n    charset: 字符编码\n    viewport: 移动端适配关键设置\n    - width=device-width: 宽度等于设备宽度\n    - initial-scale=1.0: 初始缩放比例 1:1\n    - maximum-scale=1.0: 禁止用户缩放（可选）\n    - user-scalable=no: 禁止用户缩放（可选）\n  -->\n  <meta charset=\"UTF-8\">\n" : String).data

def tplHead0b : List Char := ("  <meta name=\"viewport\" content=\"width=device-width, initial-scale=1.0, maximum-scale=1.0, user-scalable=no\">\n  <meta http-equiv=\"X-UA-Compatible\" content=\"ie=edge\">\n  \n  <!--\n    【SEO 相关】\n    SSR 的一个重要优势是 SEO 友好\n    搜索引擎爬虫可以直接看到完整内容\n  -->\n  <meta name=\"description\" content=\"React SSR 同构渲染教学演示项目\">\n  <meta name=\"keywords\" content=\"React, SSR, 同构, 服务端渲染, hydrate\">\n  \n  <!--\n    【Open Graph 标签】\n    用于社交媒体分享时的预览展示\n    SSR 可以动态设置这些标签\n  -->\n  <meta property=\"og:title\" content=\"" : String).data

def tplHead1 : List Char := ("\">\n  <meta property=\"og:description\" content=\"React SSR 同构渲染教学演示项目\">\n  <meta property=\"og:type\" content=\"website\">\n  \n  " : String).data

def tplTitleOpen : List Char := ("<title>" : String).data

def tplTitleClose : List Char := ("</title>" : String).data

def tplMid : List Char := ("\n  \n  <!--\n    【样式文件】\n    由 webpack.client.js 构建生成\n    放在 <head> 中确保样式先于内容加载\n    避免 FOUC（Flash of Unstyled Content）\n  -->\n  <link rel=\"stylesheet\" href=\"/styles.css\">\n  \n  <!--\n    【可选】预加载关键资源\n    <link rel=\"preload\" href=\"/bundle.js\" as=\"script\">\n  -->\n</head>\n<body>\n  <!--\n    【React 应用挂载点】\n    \n    这是 SSR 的核心部分：\n    - id=\"root\" 是 React 应用的挂载点\n    - 服务端渲染的 HTML 直接放在这里\n    - 客户端 hydrateRoot 会找到这个元素进行水合\n    \n    【重要】\n    服务端渲染的内容必须与客户端首次渲染一致\n    否则会出现水合错误（Hydration Mismatch）\n  -->\n  " : String).data

def tplDebug : List Char := ("\n  \n  <!--\n    【调试信息】\n    这段注释在开发时有助于确认 SSR 是否生效\n    生产环境可以移除\n  -->\n  <!-- SSR rendered at: " : String).data

def tplTail : List Char := (" -->\n  \n  <!--\n    【客户端 JavaScript】\n    \n    由 webpack.client.js 构建生成\n    放在 body 底部的原因：\n    1. 不阻塞 HTML 解析和渲染\n    2. 用户可以更快看到内容\n    3. DOM 已准备好，可以直接操作\n    \n    【执行流程】\n    1. 浏览器解析到这个 script 标签\n    2. 下载 bundle.js\n    3. 执行 bundle.js\n    4. React 调用 hydrateRoot 进行水合\n    5. 页面变得可交互\n  -->\n  <script src=\"/bundle.js\"></script>\n</body>\n</html>" : String).data

/-- The mount-point opening tag of the template. -/
def mountOpen : List Char := ("<div id=\"root\">" : String).data

/-- The mount-point closing tag of the template. -/
def mountClose : List Char := ("</div>" : String).data

/-- `renderTemplate` of `server/template.js`: the interpolated template
literal, trimmed.  `now` stands for `new Date().toISOString()`. -/
def renderTemplate (appHtml : List Char) (title : List Char := str "React SSR Demo")
    (now : List Char) : List Char :=
  jsTrim ('\n' :: (tplHead0a ++ tplHead0b ++ title ++ tplHead1 ++ tplTitleOpen ++ title ++
    tplTitleClose ++ tplMid ++ mountOpen ++ appHtml ++ mountClose ++ tplDebug ++ now ++
    tplTail ++ ['\n']))

/-- The chunks of a rendered document body up to (but excluding) the
injected timestamp, for the page title used by the SSR handler and a
given chunking of the embedded markup.  Purely proof infrastructure:
its flattening is the corresponding prefix of `renderTemplate`. -/
def bodyChunks (markupChunks : List (List Char)) : List (List Char) :=
  [tplHead0a, tplHead0b, str "React SSR 教学演示", tplHead1, tplTitleOpen,
   str "React SSR 教学演示", tplTitleClose, tplMid, mountOpen] ++
  markupChunks ++ [mountClose, tplDebug]

/-! ### The Express SSR server (`server/index.js`) -/

/-- An HTTP response as produced by `res.status(s).send(body)`. -/
structure Response where
  status : Nat
  body : List Char
deriving Repr, DecidableEq

def errHead : List Char := ("\n      <!DOCTYPE html>\n      <html>\n        <head>\n          <meta charset=\"UTF-8\">\n          <title>服务器错误</title>\n        </head>\n        <body>\n          <h1>服务器渲染错误</h1>\n          <pre>" : String).data

def errTail : List Char := ("</pre>\n        </body>\n      </html>\n    " : String).data

/-- The minimal static error page sent by the `catch` block of the SSR
handler (`res.status(500).send(...)`), with `error.message` inserted. -/
def errorPage (msg : List Char) : List Char := errHead ++ msg ++ errTail

/-- The `renderToString` call of this app as performed by the server:
it succeeds and yields the markup of the `StaticRouter`-wrapped `App`
at the request URL. -/
def ssrRender (url : List Char) : Except (List Char) (List Char) :=
  .ok (serverRenderMarkup url)

/-- The `app.get('*')` SSR handler of `server/index.js`.  `render`
models the `ReactDOMServer.renderToString` call (which may throw, the
`Except.error` case carrying `error.message`); `now` models the
timestamp taken inside `renderTemplate`.  On success the markup is
passed to `renderTemplate` with the page title and sent with status
200; on a throw the catch block sends the static error page with
status 500. -/
def handle (render : List Char → Except (List Char) (List Char))
    (url : List Char) (now : List Char) : Response :=
  match render url with
  | .ok appHtml => { status := 200, body := renderTemplate appHtml (str "React SSR 教学演示") now }
  | .error msg => { status := 500, body := errorPage msg }

/-- The console output of one request in `app.get('*')`, in order.
`elapsed` models the computed render time string.  On success the
handler logs completion, markup length and dispatch; on a throw it
logs the error via `console.error('❌ SSR 渲染错误:', error)`. -/
def handleLogs (render : List Char → Except (List Char) (List Char))
    (url : List Char) (elapsed : List Char) : List (List Char) :=
  [str "\n📥 收到请求: " ++ url, str "🔄 开始服务端渲染..."] ++
  match render url with
  | .ok appHtml =>
    [str "✅ 渲染完成，耗时: " ++ elapsed ++ str "ms",
     str "📝 HTML 长度: " ++ (toString appHtml.length).data ++ str " 字符",
     str "📤 响应已发送\n"]
  | .error msg => [str "❌ SSR 渲染错误: " ++ msg]

/-! ### The client entry (`client/index.jsx`) -/

/-- Observable actions of the client bootstrap: the `hydrateRoot`
invocation (with the container obtained from `getElementById` and the
markup of the element it would render) and `console.log` lines. -/
inductive ClientEvent where
  | hydrateCall (container : Option (List Char)) (markup : List Char)
  | logLine (s : List Char)
deriving Repr, DecidableEq

/-- Model of `document.getElementById`: the DOM is the list of element
ids present in the document; the lookup returns the first element with
the given id, or `null` (`none`). -/
def getElementById (dom : List (List Char)) (i : List Char) : Option (List Char) :=
  dom.find? (fun e => e == i)

/-- The fixed `console.log` lines that follow the `hydrateRoot` call in
`client/index.jsx`, in order. -/
def clientLogLines : List (List Char) :=
  [List.replicate 50 '=',
   str "🎉 React 水合（Hydration）完成！",
   List.replicate 50 '=',
   str "\n【水合过程说明】",
   str "1. 找到 id=\"root\" 的 DOM 元素",
   str "2. 复用服务端渲染的 HTML",
   str "3. 绑定事件处理器",
   str "4. 执行 useEffect 副作用",
   str "5. 页面现在完全可交互！\n"]

/-- The client entry (`client/index.jsx`): it looks up the container
via `document.getElementById('root')`, then unconditionally calls
`hydrateRoot(container, <BrowserRouter><App /></BrowserRouter>)`, then
prints its log lines.  There is no existence check on the container. -/
def clientBootstrap (dom : List (List Char)) (pathname : List Char) : List ClientEvent :=
  let container := getElementById dom (str "root")
  ClientEvent.hydrateCall container (clientRenderMarkup pathname) ::
    clientLogLines.map ClientEvent.logLine

/-! ### The Next.js `/api/hello` route handlers
(`react_ssr_next/app/api-routes/.../route.js`, shown in `page.jsx`) -/

/-- JSON values (numbers restricted to integers, the only numbers the
demo exchanges). -/
inductive Json where
  | null
  | jbool (b : Bool)
  | jnum (n : Int)
  | jstr (s : List Char)
  | jarr (xs : List Json)
  | jobj (fields : List (List Char × Json))

/-- The opening brace character. -/
def lbrace : Char := Char.ofNat 123

/-- The closing brace character. -/
def rbrace : Char := Char.ofNat 125

/-- Value of a digit string. -/
def digitsVal (ds : List Char) : Nat :=
  ds.foldl (fun acc d => acc * 10 + (d.toNat - 48)) 0

/-- Parse a JSON number (integer part only; the demo exchanges no
fractions). -/
def parseNum (s : List Char) : Option (Json × List Char) :=
  match s with
  | [] => none
  | c :: r =>
    if c = '-' then
      let ds := r.takeWhile Char.isDigit
      if ds = [] then none else some (.jnum (-(digitsVal ds : Int)), r.dropWhile Char.isDigit)
    else
      let ds := s.takeWhile Char.isDigit
      if ds = [] then none else some (.jnum (digitsVal ds), s.dropWhile Char.isDigit)

/-- Parse the body of a JSON string after the opening quote, with the
basic escapes. -/
def parseStrBody : Nat → List Char → Option (List Char × List Char)
  | 0, _ => none
  | _, [] => none
  | f + 1, c :: r =>
    if c = '"' then some ([], r)
    else if c = '\\' then
      match r with
      | [] => none
      | e :: r2 =>
        let ch : Option Char :=
          if e = '"' then some '"'
          else if e = '\\' then some '\\'
          else if e = '/' then some '/'
          else if e = 'n' then some '\n'
          else if e = 't' then some '\t'
          else if e = 'r' then some '\r'
          else none
        match ch with
        | some d => (parseStrBody f r2).map (fun p => (d :: p.1, p.2))
        | none => none
    else (parseStrBody f r).map (fun p => (c :: p.1, p.2))

mutual

/-- Parse one JSON value (fuelled recursive-descent). -/
def parseVal : Nat → List Char → Option (Json × List Char)
  | 0, _ => none
  | f + 1, s0 =>
    let s := s0.dropWhile isWS
    if isPre (str "null") s then some (.null, s.drop 4)
    else if isPre (str "true") s then some (.jbool true, s.drop 4)
    else if isPre (str "false") s then some (.jbool false, s.drop 5)
    else
      match s with
      | [] => none
      | c :: r =>
        if c = '"' then (parseStrBody f r).map (fun p => (.jstr p.1, p.2))
        else if c = lbrace then parseObjFields f r
        else if c = '[' then parseArrElems f r
        else parseNum s

/-- Parse the fields of a JSON object, after the opening brace. -/
def parseObjFields : Nat → List Char → Option (Json × List Char)
  | 0, _ => none
  | f + 1, s0 =>
    let s := s0.dropWhile isWS
    match s with
    | [] => none
    | c :: r =>
      if c = rbrace then some (.jobj [], r)
      else if c = '"' then
        match parseStrBody f r with
        | none => none
        | some (key, r2) =>
          match r2.dropWhile isWS with
          | ':' :: r4 =>
            match parseVal f r4 with
            | none => none
            | some (v, r5) =>
              match r5.dropWhile isWS with
              | [] => none
              | c2 :: r7 =>
                if c2 = ',' then
                  match parseObjFields f r7 with
                  | some (.jobj fs, r8) => some (.jobj ((key, v) :: fs), r8)
                  | _ => none
                else if c2 = rbrace then some (.jobj [(key, v)], r7)
                else none
          | _ => none
      else none

/-- Parse the elements of a JSON array, after the opening bracket. -/
def parseArrElems : Nat → List Char → Option (Json × List Char)
  | 0, _ => none
  | f + 1, s0 =>
    let s := s0.dropWhile isWS
    match s with
    | ']' :: r => some (.jarr [], r)
    | _ =>
      match parseVal f s with
      | none => none
      | some (v, r5) =>
        match r5.dropWhile isWS with
        | [] => none
        | c2 :: r7 =>
          if c2 = ',' then
            match parseArrElems f r7 with
            | some (.jarr xs, r8) => some (.jarr (v :: xs), r8)
            | _ => none
          else if c2 = ']' then some (.jarr [v], r7)
          else none

end

/-- Model of the platform `JSON.parse` (as invoked by
`request.json()`), on the JSON fragment the demo exchanges: objects,
arrays, strings with basic escapes, integers, booleans and null.
Returns `none` when the body cannot be parsed (the case in which
`request.json()` throws). -/
def jsonParse (s : List Char) : Option Json :=
  match parseVal (s.length + 1) s with
  | some (v, rest) => if rest.dropWhile isWS = [] then some v else none
  | none => none

/-- A JSON API response, as produced by `Response.json(body, init)`. -/
structure ApiResponse where
  status : Nat
  body : Json

/-- Field lookup on a JSON object value. -/
def jgetField (j : Json) (k : List Char) : Option Json :=
  match j with
  | .jobj fs => (fs.find? (fun f => f.1 == k)).map (fun f => f.2)
  | _ => none

/-- Model of `URLSearchParams.get`: the first value bound to the key in
the (already decoded) query parameter list, or `null` (`none`). -/
def searchParamsGet (query : List (List Char × List Char)) (k : List Char) :
    Option (List Char) :=
  (query.find? (fun p => p.1 == k)).map (fun p => p.2)

/-- Model of the JavaScript expression `x || d` where `x` is a
string-or-null: both `null` and the empty string are falsy. -/
def jsOrDefault (v : Option (List Char)) (d : List Char) : List Char :=
  match v with
  | none => d
  | some s => if s = [] then d else s

/-- The `GET` handler of `/api/hello`:
`const name = searchParams.get('name') || 'World';` followed by
`Response.json({...})` (status 200).  `now` models
`new Date().toISOString()`. -/
def apiHelloGET (query : List (List Char × List Char)) (now : List Char) : ApiResponse :=
  let name := jsOrDefault (searchParamsGet query (str "name")) (str "World")
  { status := 200,
    body := .jobj [
      (str "message", .jstr (str "Hello, " ++ name ++ str "!")),
      (str "timestamp", .jstr now),
      (str "method", .jstr (str "GET")),
      (str "description", .jstr (str "这是一个 Next.js API Route 示例"))] }

/-- The `POST` handler of `/api/hello`: `await request.json()` inside
`try`, echoing the body in a 201 response, with the `catch` branch
returning a 400 response with an error field. -/
def apiHelloPOST (bodyText : List Char) (now : List Char) : ApiResponse :=
  match jsonParse bodyText with
  | some body =>
    { status := 201,
      body := .jobj [
        (str "received", body),
        (str "processed", .jbool true),
        (str "timestamp", .jstr now),
        (str "method", .jstr (str "POST"))] }
  | none =>
    { status := 400, body := .jobj [(str "error", .jstr (str "无效的 JSON 数据"))] }

/-! ### Lemmas about the string machinery -/

theorem isPre_length {pat s : List Char} (h : isPre pat s = true) :
    pat.length ≤ s.length := by
  induction pat generalizing s with
  | nil => simp
  | cons a as ih =>
    cases s with
    | nil => simp [isPre] at h
    | cons b bs =>
      simp only [isPre] at h
      split at h
      · simpa using ih h
      · simp at h

theorem isPre_take (pat s : List Char) :
    isPre pat s = isPre pat (s.take pat.length) := by
  induction pat generalizing s with
  | nil => simp [isPre]
  | cons a as ih =>
    cases s with
    | nil => simp
    | cons b bs =>
      simp only [isPre, List.take]
      split
      · exact ih bs
      · rfl

theorem isPre_refl (pat : List Char) : isPre pat pat = true := by
  induction pat with
  | nil => rfl
  | cons a as ih => simp [isPre, ih]

theorem isPre_append_right {pat s : List Char} (t : List Char)
    (h : isPre pat s = true) : isPre pat (s ++ t) = true := by
  induction pat generalizing s with
  | nil => rfl
  | cons a as ih =>
    cases s with
    | nil => simp [isPre] at h
    | cons b bs =>
      simp only [isPre] at h ⊢
      split at h
      · rename_i hab
        simpa [List.cons_append, isPre, hab] using ih h
      · simp at h

theorem isPre_eq_take {pat s : List Char} (h : isPre pat s = true) :
    s.take pat.length = pat := by
  induction pat generalizing s with
  | nil => simp
  | cons a as ih =>
    cases s with
    | nil => simp [isPre] at h
    | cons b bs =>
      simp only [isPre] at h
      split at h
      · rename_i hab
        simp [List.take, hab, ih h]
      · simp at h

theorem countSub_short {pat s : List Char} (hp : pat ≠ [])
    (h : s.length < pat.length) : countSub pat s = 0 := by
  induction s with
  | nil => rfl
  | cons c rest ih =>
    simp only [countSub]
    have hfalse : isPre pat (c :: rest) = false := by
      cases hpre : isPre pat (c :: rest)
      · rfl
      · exact absurd (isPre_length hpre) (by omega)
    rw [hfalse]
    simp only [if_neg Bool.false_ne_true, Nat.zero_add]
    exact ih (by simp only [List.length_cons] at h; omega)

theorem countSub_append_countIn (pat a b : List Char) :
    countSub pat (a ++ b) = countIn pat b a + countSub pat b := by
  induction a with
  | nil => simp [countIn]
  | cons c rest ih =>
    simp only [List.cons_append, countSub, countIn, ih, List.append_eq]
    omega

theorem countIn_eq_take {pat : List Char} (hp : pat ≠ []) (b a : List Char) :
    countIn pat b a = countSub pat (a ++ b.take (pat.length - 1)) := by
  induction a with
  | nil =>
    simp only [countIn, List.nil_append]
    exact (countSub_short hp (by
      have := List.length_take_le (pat.length - 1) b
      have : (b.take (pat.length - 1)).length ≤ pat.length - 1 := List.length_take_le _ _
      have hplen : 0 < pat.length := List.length_pos.mpr hp
      omega)).symm
  | cons c rest ih =>
    simp only [countIn, countSub, List.cons_append, List.append_eq, ih]
    congr 1
    have hwindow : isPre pat (c :: (rest ++ b)) =
        isPre pat (c :: (rest ++ b.take (pat.length - 1))) := by
      rw [isPre_take pat (c :: (rest ++ b)),
        isPre_take pat (c :: (rest ++ b.take (pat.length - 1)))]
      congr 1
      cases hplen : pat.length with
      | zero => simp
      | succ n =>
        simp only [List.take_succ_cons, List.take_append_eq_append_take, List.take_take]
        have hmin : (n - rest.length) ⊓ (n + 1 - 1) = n - rest.length := by omega
        rw [hmin]
    simp only [hwindow]

theorem countSub_chunk {pat : List Char} (hp : pat ≠ []) (a b : List Char) :
    countSub pat (a ++ b) = countSub pat (a ++ b.take (pat.length - 1)) + countSub pat b := by
  rw [countSub_append_countIn, countIn_eq_take hp]

theorem takeK_eq (k : Nat) (cs : List (List Char)) :
    takeK k cs = cs.flatten.take k := by
  induction cs generalizing k with
  | nil => simp [takeK]
  | cons c cs ih =>
    simp only [takeK, List.flatten_cons, List.take_append_eq_append_take]
    split
    · rename_i hk
      have : k - c.length = 0 := by omega
      simp [this]
    · rename_i hk
      have : c.length ≤ k := by omega
      rw [List.take_of_length_le this, ih]

theorem chunkCount_eq {pat : List Char} (hp : pat ≠ []) (cs : List (List Char)) :
    chunkCount pat cs = countSub pat cs.flatten := by
  induction cs with
  | nil => rfl
  | cons c cs ih =>
    simp only [chunkCount, List.flatten_cons, takeK_eq, ih]
    exact (countSub_chunk hp c cs.flatten).symm

theorem isPre_through_mid {pat mid : List Char} (hm : mid ≠ [])
    (hd : ∀ c ∈ mid, c ∉ pat) (s t : List Char) :
    isPre pat (s ++ mid ++ t) = isPre pat s := by
  induction pat generalizing s with
  | nil => rfl
  | cons p ps ih =>
    cases s with
    | nil =>
      cases mid with
      | nil => exact absurd rfl hm
      | cons m mid' =>
        simp only [List.nil_append, List.cons_append, isPre, List.append_eq]
        split
        · rename_i hpm
          exact absurd (hd m (by simp)) (by simp [← hpm])
        · rfl
    | cons a s' =>
      simp only [List.cons_append, isPre, List.append_eq, List.append_assoc]
      split
      · have := ih (fun c hc => fun hmem => hd c hc (by simp [hmem])) s'
        simpa [List.append_assoc] using this
      · rfl

theorem countSub_append_left_disjoint {pat mid : List Char} (hp : pat ≠ [])
    (y : List Char) (hd : ∀ c ∈ mid, c ∉ pat) :
    countSub pat (mid ++ y) = countSub pat y := by
  induction mid with
  | nil => simp
  | cons m mid' ih =>
    simp only [List.cons_append, countSub, List.append_eq]
    have hfalse : isPre pat (m :: (mid' ++ y)) = false := by
      cases pat with
      | nil => exact absurd rfl hp
      | cons p ps =>
        simp only [isPre]
        split
        · rename_i hpm
          exact absurd (hd m (by simp)) (by simp [← hpm])
        · rfl
    simp only [hfalse, if_neg Bool.false_ne_true, Nat.zero_add]
    exact ih (fun c hc => hd c (by simp [hc]))

theorem countSub_mid {pat mid : List Char} (hp : pat ≠ []) (hm : mid ≠ [])
    (x y : List Char) (hd : ∀ c ∈ mid, c ∉ pat) :
    countSub pat (x ++ mid ++ y) = countSub pat x + countSub pat y := by
  induction x with
  | nil =>
    simpa [countSub] using countSub_append_left_disjoint hp y hd
  | cons a x' ih =>
    have hhead : isPre pat (a :: (x' ++ (mid ++ y))) = isPre pat (a :: x') := by
      have := isPre_through_mid hm hd (a :: x') y
      simpa [List.cons_append, List.append_assoc] using this
    simp only [List.cons_append, countSub, List.append_eq, List.append_assoc] at ih ⊢
    rw [hhead]
    omega

theorem isPre_append_eq_of_le {pat s : List Char} (r : List Char)
    (h : pat.length ≤ s.length) : isPre pat (s ++ r) = isPre pat s := by
  rw [isPre_take pat (s ++ r), isPre_take pat s, List.take_append_eq_append_take]
  have h0 : pat.length - s.length = 0 := by omega
  simp [h0]

theorem firstSplit_sound {pat s p q : List Char}
    (h : firstSplit pat s = some (p, q)) : s = p ++ pat ++ q := by
  induction s generalizing p with
  | nil => simp [firstSplit] at h
  | cons c rest ih =>
    simp only [firstSplit] at h
    split at h
    · rename_i hif
      simp only [Option.some.injEq, Prod.mk.injEq] at h
      obtain ⟨hp', hq⟩ := h
      subst hq
      rw [← hp']
      have htake := isPre_eq_take hif
      simp only [List.nil_append]
      conv_lhs => rw [← List.take_append_drop pat.length (c :: rest)]
      rw [htake]
    · rename_i hif
      cases hmatch : firstSplit pat rest with
      | none => rw [hmatch] at h; simp at h
      | some pq =>
        rw [hmatch] at h
        obtain ⟨pp, qq⟩ := pq
        simp only [Option.some.injEq, Prod.mk.injEq] at h
        obtain ⟨hp', hq'⟩ := h
        subst hq'
        rw [← hp']
        simpa [List.cons_append] using congrArg (c :: ·) (ih hmatch)

theorem firstSplit_append_right {pat k p q : List Char} (r : List Char)
    (h : firstSplit pat k = some (p, q)) :
    firstSplit pat (k ++ r) = some (p, q ++ r) := by
  induction k generalizing p q with
  | nil => simp [firstSplit] at h
  | cons c rest ih =>
    simp only [firstSplit] at h
    split at h
    · rename_i hif
      simp only [Option.some.injEq, Prod.mk.injEq] at h
      obtain ⟨hp', hq⟩ := h
      subst hq
      rw [← hp']
      have hlen : pat.length ≤ (c :: rest).length := isPre_length hif
      have hiftrue : isPre pat (c :: (rest ++ r)) = true := by
        have := isPre_append_right r hif
        simpa [List.cons_append] using this
      have hdrop : List.drop pat.length (c :: (rest ++ r)) =
          List.drop pat.length (c :: rest) ++ r := by
        have hdr : List.drop pat.length ((c :: rest) ++ r) =
            List.drop pat.length (c :: rest) ++ r := List.drop_append_of_le_length hlen
        simpa [List.cons_append] using hdr
      simp [firstSplit, hiftrue, hdrop]
    · rename_i hif
      cases hmatch : firstSplit pat rest with
      | none => rw [hmatch] at h; simp at h
      | some pq =>
        rw [hmatch] at h
        obtain ⟨pp, qq⟩ := pq
        simp only [Option.some.injEq, Prod.mk.injEq] at h
        obtain ⟨hp', hq'⟩ := h
        have hlen : pat.length ≤ rest.length := by
          have hs := firstSplit_sound hmatch
          rw [hs]
          simp only [List.length_append]
          omega
        have hif0 : isPre pat (c :: rest) = false := by simpa using hif
        have hif' : isPre pat (c :: (rest ++ r)) = false := by
          have heq : isPre pat ((c :: rest) ++ r) = isPre pat (c :: rest) :=
            isPre_append_eq_of_le r (by simpa using Nat.le_succ_of_le hlen)
          rw [show (c :: rest) ++ r = c :: (rest ++ r) by simp] at heq
          rw [heq, hif0]
        simp only [List.cons_append, firstSplit, List.append_eq, hif',
          if_neg Bool.false_ne_true]
        rw [ih hmatch]
        simp [← hp', ← hq']

theorem firstSplit_skip {pat : List Char} (a b : List Char)
    (hin : countIn pat b a = 0) :
    firstSplit pat (a ++ b) =
      (firstSplit pat b).map (fun pq => (a ++ pq.1, pq.2)) := by
  induction a with
  | nil =>
    cases hfs : firstSplit pat b with
    | none => simp [hfs]
    | some pq => simp [hfs]
  | cons c rest ih =>
    simp only [countIn, List.append_eq] at hin
    have hif : isPre pat (c :: (rest ++ b)) = false := by
      cases hpre : isPre pat (c :: (rest ++ b))
      · rfl
      · rw [show isPre pat (c :: rest ++ b) = true by simpa [List.cons_append] using hpre] at hin
        simp at hin
    have hrest : countIn pat b rest = 0 := by
      rw [show isPre pat (c :: rest ++ b) = false by simpa [List.cons_append] using hif] at hin
      simpa using hin
    simp only [List.cons_append, firstSplit, List.append_eq, hif,
      if_neg Bool.false_ne_true]
    rw [ih hrest]
    cases firstSplit pat b with
    | none => rfl
    | some pq => rfl

theorem firstSplit_here {pat : List Char} (hp : pat ≠ []) (r : List Char) :
    firstSplit pat (pat ++ r) = some ([], r) := by
  cases pat with
  | nil => exact absurd rfl hp
  | cons p ps =>
    have hiftrue : isPre (p :: ps) (p :: (ps ++ r)) = true := by
      have := isPre_append_right r (isPre_refl (p :: ps))
      simpa [List.cons_append] using this
    have hdrop : List.drop (p :: ps).length (p :: (ps ++ r)) = r := by
      have := List.drop_left (p :: ps) r
      simpa [List.cons_append] using this
    simp [firstSplit, hiftrue, hdrop]

theorem betweenFirst_append_right {o c k v : List Char} (r : List Char)
    (h : betweenFirst o c k = some v) : betweenFirst o c (k ++ r) = some v := by
  unfold betweenFirst at h ⊢
  cases h1 : firstSplit o k with
  | none => rw [h1] at h; exact absurd h (by simp)
  | some pr =>
    rw [h1] at h
    dsimp only [Option.bind] at h
    cases h2 : firstSplit c pr.2 with
    | none => rw [h2] at h; exact absurd h (by simp)
    | some vw =>
      rw [h2] at h
      dsimp only [Option.map] at h
      have e1 := firstSplit_append_right r (p := pr.1) (q := pr.2) (by rw [h1])
      have e2 := firstSplit_append_right r (p := vw.1) (q := vw.2) (by rw [h2])
      rw [e1]
      dsimp only [Option.bind]
      rw [e2]
      dsimp only [Option.map]
      exact h

theorem betweenFirst_skip {o c : List Char} (a b : List Char)
    (hin : countIn o b a = 0) :
    betweenFirst o c (a ++ b) = betweenFirst o c b := by
  simp only [betweenFirst, firstSplit_skip a b hin]
  cases firstSplit o b with
  | none => rfl
  | some pr => rfl

theorem dropWhile_of_head_false {p : Char → Bool} {l : List Char} {a : Char}
    (h : l.head? = some a) (ha : p a = false) : l.dropWhile p = l := by
  cases l with
  | nil => simp at h
  | cons x xs =>
    simp only [List.head?_cons, Option.some.injEq] at h
    subst h
    simp [List.dropWhile_cons, ha]

theorem jsTrim_wrap {mid : List Char} {a b : Char}
    (h1 : mid.head? = some a) (ha : isWS a = false)
    (h2 : mid.getLast? = some b) (hb : isWS b = false) :
    jsTrim ('\n' :: (mid ++ ['\n'])) = mid := by
  have hws : isWS '\n' = true := rfl
  unfold jsTrim
  rw [List.dropWhile_cons, if_pos hws]
  rw [dropWhile_of_head_false (l := mid ++ ['\n']) (a := a)
    (by cases mid with
      | nil => simp at h1
      | cons x xs => simpa using h1) ha]
  rw [List.reverse_append]
  simp only [List.reverse_cons, List.reverse_nil, List.nil_append, List.singleton_append]
  rw [List.dropWhile_cons, if_pos hws]
  rw [dropWhile_of_head_false (l := mid.reverse) (a := b)
    (by simpa [List.head?_reverse] using h2) hb]
  exact List.reverse_reverse mid

/-! ### Structure of the assembled document -/

theorem ne_nil_of_head? {l : List Char} {a : Char} (h : l.head? = some a) :
    l ≠ [] := by
  intro hnil
  subst hnil
  simp at h

theorem head?_append_left (l₁ l₂ : List Char) (h : l₁ ≠ []) :
    (l₁ ++ l₂).head? = l₁.head? := by
  cases l₁ with
  | nil => exact absurd rfl h
  | cons x xs => rfl

/-- The template literal of `renderTemplate`, trimmed: the trim removes
exactly the leading and trailing newline of the literal, so the result
is the concatenation of the fixed chunks and the three interpolated
values. -/
theorem renderTemplate_eq (a t n : List Char) :
    renderTemplate a t n =
      tplHead0a ++ tplHead0b ++ t ++ tplHead1 ++ tplTitleOpen ++ t ++
      tplTitleClose ++ tplMid ++ mountOpen ++ a ++ mountClose ++ tplDebug ++ n ++ tplTail := by
  unfold renderTemplate
  refine jsTrim_wrap (a := '<') (b := '>') ?_ rfl ?_ rfl
  · rw [show tplHead0a ++ tplHead0b ++ t ++ tplHead1 ++ tplTitleOpen ++ t ++
        tplTitleClose ++ tplMid ++ mountOpen ++ a ++ mountClose ++ tplDebug ++ n ++ tplTail =
        tplHead0a ++ (tplHead0b ++ t ++ tplHead1 ++ tplTitleOpen ++ t ++
        tplTitleClose ++ tplMid ++ mountOpen ++ a ++ mountClose ++ tplDebug ++ n ++ tplTail) by
      simp [List.append_assoc]]
    rw [head?_append_left tplHead0a _ (ne_nil_of_head? (a := '<') rfl)]
    rfl
  · rw [← List.head?_reverse, List.reverse_append]
    rw [head?_append_left tplTail.reverse _ (ne_nil_of_head? (a := '>') rfl)]
    rfl

/-- C2: for equal route input, the markup of the server-side
`renderToString(StaticRouter(location = url)(App))` call and the markup
of the client-side `hydrateRoot(BrowserRouter(App))` initial render at
the same URL are byte-identical: both are the pure render of `App` at
the parsed pathname, with identical initial state (no environment
values enter the initial render). -/
theorem serverClientMarkupAgree (url : List Char) :
    serverRenderMarkup url = clientRenderMarkup (parsePathname url) := rfl

/-- C7: the Template Assembler is deterministic in `markup` and `title`
except for the injected timestamp comment: two outputs for the same
inputs share a common prefix and suffix around the timestamp, and the
mount-point element (with its contents) lies entirely inside that
common prefix, so the timestamp never appears inside the mount-point
element. -/
theorem renderTemplateDeterministic (a t ts1 ts2 : List Char) :
    ∃ pre post,
      renderTemplate a t ts1 = pre ++ ts1 ++ post ∧
      renderTemplate a t ts2 = pre ++ ts2 ++ post ∧
      ∃ u w, pre = u ++ mountOpen ++ a ++ mountClose ++ w := by
  refine ⟨tplHead0a ++ tplHead0b ++ t ++ tplHead1 ++ tplTitleOpen ++ t ++
      tplTitleClose ++ tplMid ++ mountOpen ++ a ++ mountClose ++ tplDebug, tplTail, ?_, ?_, ?_⟩
  · rw [renderTemplate_eq]
  · rw [renderTemplate_eq]
  · exact ⟨tplHead0a ++ tplHead0b ++ t ++ tplHead1 ++ tplTitleOpen ++ t ++
      tplTitleClose ++ tplMid, tplDebug, by simp [List.append_assoc]⟩

theorem countIn_zero_of {pat : List Char} (hp : pat ≠ []) {a b : List Char}
    (h : countSub pat (a ++ b.take (pat.length - 1)) = 0) : countIn pat b a = 0 := by
  rw [countIn_eq_take hp]
  exact h

theorem take_append_left {n : Nat} {l₁ : List Char} (l₂ : List Char) (h : n ≤ l₁.length) :
    (l₁ ++ l₂).take n = l₁.take n := by
  rw [List.take_append_eq_append_take]
  have h0 : n - l₁.length = 0 := by omega
  simp [h0]

theorem betweenFirst_found {o c : List Char} (ho : o ≠ []) (hc : c ≠ []) (t r : List Char)
    (hin : countIn c (c ++ r) t = 0) :
    betweenFirst o c (o ++ (t ++ (c ++ r))) = some t := by
  simp only [betweenFirst]
  rw [firstSplit_here ho]
  dsimp only [Option.bind]
  rw [firstSplit_skip t (c ++ r) hin, firstSplit_here hc]
  simp

/-- C6: assembling the document from markup `<p>X</p>` and title `T`
puts exactly `T` as the text of the `<title>` element and exactly
`<p>X</p>` (unescaped, unaltered) as the contents of the mount-point
element, for any injected timestamp. -/
theorem assembleTitleAndMountContent (now : List Char) :
    betweenFirst (str "<title>") (str "</title>")
        (renderTemplate (str "<p>X</p>") (str "T") now) = some (str "T") ∧
    betweenFirst mountOpen mountClose
        (renderTemplate (str "<p>X</p>") (str "T") now) = some (str "<p>X</p>") := by
  constructor
  · rw [renderTemplate_eq,
      show tplHead0a ++ tplHead0b ++ str "T" ++ tplHead1 ++ tplTitleOpen ++ str "T" ++
          tplTitleClose ++ tplMid ++ mountOpen ++ str "<p>X</p>" ++ mountClose ++ tplDebug ++
          now ++ tplTail =
        (tplHead0a ++ tplHead0b) ++ ((str "T" ++ tplHead1) ++ (str "<title>" ++ (str "T" ++
          (str "</title>" ++ (tplMid ++ mountOpen ++ str "<p>X</p>" ++ mountClose ++ tplDebug ++
          now ++ tplTail))))) by
        simp only [tplTitleOpen, tplTitleClose, str, List.append_assoc]]
    rw [betweenFirst_skip _ _ (countIn_zero_of (by decide)
      (by rw [take_append_left _ (by decide)]; decide))]
    rw [betweenFirst_skip _ _ (countIn_zero_of (by decide)
      (by rw [take_append_left _ (by decide)]; decide))]
    exact betweenFirst_found (by decide) (by decide) _ _ (countIn_zero_of (by decide)
      (by rw [take_append_left _ (by decide)]; decide))
  · rw [renderTemplate_eq,
      show tplHead0a ++ tplHead0b ++ str "T" ++ tplHead1 ++ tplTitleOpen ++ str "T" ++
          tplTitleClose ++ tplMid ++ mountOpen ++ str "<p>X</p>" ++ mountClose ++ tplDebug ++
          now ++ tplTail =
        (tplHead0a ++ tplHead0b) ++ ((str "T" ++ tplHead1) ++ ((tplTitleOpen ++ (str "T" ++
          tplTitleClose)) ++ (tplMid ++ (mountOpen ++ (str "<p>X</p>" ++ (mountClose ++ (tplDebug ++
          (now ++ tplTail)))))))) by
        simp only [List.append_assoc]]
    rw [betweenFirst_skip _ _ (countIn_zero_of (by decide)
      (by rw [take_append_left _ (by decide)]; decide))]
    rw [betweenFirst_skip _ _ (countIn_zero_of (by decide)
      (by rw [take_append_left _ (by decide)]; decide))]
    rw [betweenFirst_skip _ _ (countIn_zero_of (by decide)
      (by rw [take_append_left _ (by decide)]; decide))]
    rw [betweenFirst_skip _ _ (countIn_zero_of (by decide)
      (by rw [take_append_left _ (by decide)]; decide))]
    exact betweenFirst_found (by decide) (by decide) _ _ (countIn_zero_of (by decide)
      (by rw [take_append_left _ (by decide)]; decide))

/-! ### Error handling of the SSR server -/

/-- C3 (counterexample): the 500 render-failure response does not pass
through the Template Assembler: its body is not `renderTemplate` of any
inputs (every `renderTemplate` output starts with `<`, the error page
starts with a newline). -/
theorem errorResponseNotTemplated :
    (handle (fun _ => Except.error (str "boom")) (str "/")
        (str "2024-01-01T00:00:00.000Z")).status = 500 ∧
    ¬ ∃ a t n, (handle (fun _ => Except.error (str "boom")) (str "/")
        (str "2024-01-01T00:00:00.000Z")).body = renderTemplate a t n := by
  refine ⟨rfl, ?_⟩
  rintro ⟨a, t, n, h⟩
  have hbody : (handle (fun _ => Except.error (str "boom")) (str "/")
      (str "2024-01-01T00:00:00.000Z")).body = errorPage (str "boom") := rfl
  rw [hbody] at h
  have h1 : (errorPage (str "boom")).head? = some '\n' := rfl
  have h2 : (renderTemplate a t n).head? = some '<' := by
    rw [renderTemplate_eq,
      show tplHead0a ++ tplHead0b ++ t ++ tplHead1 ++ tplTitleOpen ++ t ++
          tplTitleClose ++ tplMid ++ mountOpen ++ a ++ mountClose ++ tplDebug ++ n ++ tplTail =
        tplHead0a ++ (tplHead0b ++ t ++ tplHead1 ++ tplTitleOpen ++ t ++
          tplTitleClose ++ tplMid ++ mountOpen ++ a ++ mountClose ++ tplDebug ++ n ++ tplTail) by
        simp [List.append_assoc],
      head?_append_left tplHead0a _ (ne_nil_of_head? (a := '<') rfl)]
    rfl
  rw [h, h2] at h1
  exact absurd h1 (by decide)

/-- C3 (amended): every successful response body is produced by the
Template Assembler; the render-failure 500 response is the fixed static
error page, which is not a Template Assembler output. -/
theorem handleBodyTemplateOrStatic (render : List Char → Except (List Char) (List Char))
    (url now : List Char) :
    (∀ a, render url = .ok a →
      (handle render url now).body = renderTemplate a (str "React SSR 教学演示") now) ∧
    (∀ msg, render url = .error msg →
      (handle render url now).body = errorPage msg ∧
      ¬ ∃ a t n, (handle render url now).body = renderTemplate a t n) := by
  constructor
  · intro a h
    simp [handle, h]
  · intro msg h
    have hbody : (handle render url now).body = errorPage msg := by simp [handle, h]
    refine ⟨hbody, ?_⟩
    rintro ⟨a, t, n, hcontra⟩
    rw [hbody] at hcontra
    have h1 : (errorPage msg).head? = some '\n' := by
      unfold errorPage
      rw [show errHead ++ msg ++ errTail = errHead ++ (msg ++ errTail) by
          simp [List.append_assoc],
        head?_append_left errHead _ (ne_nil_of_head? (a := '\n') rfl)]
      rfl
    have h2 : (renderTemplate a t n).head? = some '<' := by
      rw [renderTemplate_eq,
        show tplHead0a ++ tplHead0b ++ t ++ tplHead1 ++ tplTitleOpen ++ t ++
            tplTitleClose ++ tplMid ++ mountOpen ++ a ++ mountClose ++ tplDebug ++ n ++ tplTail =
          tplHead0a ++ (tplHead0b ++ t ++ tplHead1 ++ tplTitleOpen ++ t ++
            tplTitleClose ++ tplMid ++ mountOpen ++ a ++ mountClose ++ tplDebug ++ n ++ tplTail) by
          simp [List.append_assoc],
        head?_append_left tplHead0a _ (ne_nil_of_head? (a := '<') rfl)]
      rfl
    rw [hcontra, h2] at h1
    exact absurd h1 (by decide)

theorem handleBodyTemplateOrStatic_witness :
    (handle (fun _ => Except.error (str "x")) (str "/") (str "ts")).body =
      errorPage (str "x") :=
  ((handleBodyTemplateOrStatic (fun _ => Except.error (str "x")) (str "/")
    (str "ts")).2 (str "x") rfl).1

/-- C4: when the render primitive throws, the handler catches it, logs
the error, and responds with the fixed minimal static error page at
status 500; the response is the same for every request in which the
render throws with that message (no fallback or partial render). -/
theorem handleRenderFailure (render : List Char → Except (List Char) (List Char))
    (url now elapsed msg : List Char) (h : render url = .error msg) :
    handle render url now = ⟨500, errorPage msg⟩ ∧
    (str "❌ SSR 渲染错误: " ++ msg) ∈ handleLogs render url elapsed ∧
    ∀ render2 url2 now2, render2 url2 = Except.error msg →
      handle render2 url2 now2 = handle render url now := by
  refine ⟨by simp [handle, h], by simp [handleLogs, h], ?_⟩
  intro render2 url2 now2 h2
  simp [handle, h, h2]

theorem handleRenderFailure_witness :
    handle (fun _ => Except.error (str "boom")) (str "/") (str "ts") =
      ⟨500, errorPage (str "boom")⟩ ∧
    (str "❌ SSR 渲染错误: " ++ str "boom") ∈
      handleLogs (fun _ => Except.error (str "boom")) (str "/") (str "12") ∧
    ∀ render2 url2 now2, render2 url2 = Except.error (str "boom") →
      handle render2 url2 now2 =
        handle (fun _ => Except.error (str "boom")) (str "/") (str "ts") :=
  handleRenderFailure (fun _ => Except.error (str "boom")) (str "/") (str "ts")
    (str "12") (str "boom") rfl

/-! ### The client bootstrap -/

/-- C9 (counterexample): on a document with no element of id `root`,
the client bootstrap does not abort: it still invokes the hydration
primitive, passing the `null` container. -/
theorem clientBootstrapNoGuard :
    getElementById [] (str "root") = none ∧
    ClientEvent.hydrateCall none (clientRenderMarkup (str "/")) ∈
      clientBootstrap [] (str "/") := by
  exact ⟨rfl, List.mem_cons_self _ _⟩

/-- C9 (amended): the client bootstrap performs no existence check: for
every document it invokes `hydrateRoot` with whatever
`getElementById('root')` returned (`null` when absent), and its log
lines are only the fixed success messages — no failure is logged. -/
theorem clientBootstrapAlwaysHydrates (dom : List (List Char)) (pathname : List Char) :
    ClientEvent.hydrateCall (getElementById dom (str "root")) (clientRenderMarkup pathname)
      ∈ clientBootstrap dom pathname ∧
    ∀ s, ClientEvent.logLine s ∈ clientBootstrap dom pathname → s ∈ clientLogLines := by
  constructor
  · exact List.mem_cons_self _ _
  · intro s hs
    simp only [clientBootstrap, List.mem_cons, List.mem_map] at hs
    rcases hs with h | ⟨a, ha, hais⟩
    · cases h
    · cases hais
      exact ha

theorem clientBootstrapAlwaysHydrates_witness :
    ClientEvent.hydrateCall (getElementById [] (str "root")) (clientRenderMarkup (str "/"))
      ∈ clientBootstrap [] (str "/") ∧
    ∀ s, ClientEvent.logLine s ∈ clientBootstrap [] (str "/") → s ∈ clientLogLines :=
  clientBootstrapAlwaysHydrates [] (str "/")

/-! ### The `/api/hello` handlers -/

/-- C8: posting the body `{"name":"test"}` yields a 201 response whose
`received.name` equals `"test"`; posting an unparsable body yields a
400 response with an `error` field. -/
theorem apiHelloPostEcho (now now2 : List Char) :
    (apiHelloPOST (str "\x7b\"name\":\"test\"\x7d") now).status = 201 ∧
    ((jgetField ((apiHelloPOST (str "\x7b\"name\":\"test\"\x7d") now).body)
        (str "received")).bind (fun j => jgetField j (str "name"))) =
      some (Json.jstr (str "test")) ∧
    (apiHelloPOST (str "not json") now2).status = 400 ∧
    jgetField ((apiHelloPOST (str "not json") now2).body) (str "error") =
      some (Json.jstr (str "无效的 JSON 数据")) := by
  exact ⟨rfl, rfl, rfl, rfl⟩

/-- C10 (counterexample): for the query `name=` (a present but empty
`name` parameter, so `X` is the empty string), the handler answers
`Hello, World!` — not `Hello, X!` = `Hello, !` — because `|| 'World'`
treats the empty string as falsy. -/
theorem apiHelloGetEmptyName :
    searchParamsGet [(str "name", str "")] (str "name") = some (str "") ∧
    jgetField ((apiHelloGET [(str "name", str "")] (str "ts")).body) (str "message") =
      some (Json.jstr (str "Hello, World!")) ∧
    str "Hello, World!" ≠ str "Hello, !" := by
  exact ⟨rfl, rfl, by decide⟩

/-- C10 (amended): the GET handler never fails: it always answers 200;
with no `name` parameter (or an empty one) the message is
`Hello, World!`, and for a nonempty value `X` the message is
`Hello, X!`. -/
theorem apiHelloGetMessage (query : List (List Char × List Char)) (now : List Char) :
    (apiHelloGET query now).status = 200 ∧
    (searchParamsGet query (str "name") = none →
      jgetField ((apiHelloGET query now).body) (str "message") =
        some (Json.jstr (str "Hello, World!"))) ∧
    (searchParamsGet query (str "name") = some (str "") →
      jgetField ((apiHelloGET query now).body) (str "message") =
        some (Json.jstr (str "Hello, World!"))) ∧
    (∀ X, X ≠ [] → searchParamsGet query (str "name") = some X →
      jgetField ((apiHelloGET query now).body) (str "message") =
        some (Json.jstr (str "Hello, " ++ X ++ str "!"))) := by
  refine ⟨rfl, ?_, ?_, ?_⟩
  · intro h
    simp [apiHelloGET, jsOrDefault, h, jgetField]
    decide
  · intro h
    simp [apiHelloGET, jsOrDefault, h, jgetField]
    decide
  · intro X hX h
    simp [apiHelloGET, jsOrDefault, h, hX, jgetField]

theorem apiHelloGetMessage_witness :
    (apiHelloGET [(str "name", str "Lean")] (str "ts")).status = 200 ∧
    jgetField ((apiHelloGET [(str "name", str "Lean")] (str "ts")).body) (str "message") =
      some (Json.jstr (str "Hello, " ++ str "Lean" ++ str "!")) :=
  ⟨(apiHelloGetMessage [(str "name", str "Lean")] (str "ts")).1,
    (apiHelloGetMessage [(str "name", str "Lean")] (str "ts")).2.2.2 (str "Lean")
      (by decide) rfl⟩

/-! ### The assembled document of a successful request -/

theorem flatten_bodyChunks (mc : List (List Char)) :
    (bodyChunks mc).flatten =
      tplHead0a ++ tplHead0b ++ str "React SSR 教学演示" ++ tplHead1 ++ tplTitleOpen ++
      str "React SSR 教学演示" ++ tplTitleClose ++ tplMid ++ mountOpen ++ mc.flatten ++
      mountClose ++ tplDebug := by
  simp [bodyChunks, List.flatten_append, List.flatten_cons, List.append_assoc]

theorem handle_ok_body (url now : List Char) :
    (handle ssrRender url now).body =
      (bodyChunks (renderChunks (appTree (parsePathname url)))).flatten ++ now ++ tplTail := by
  have hb : (handle ssrRender url now).body =
      renderTemplate (serverRenderMarkup url) (str "React SSR 教学演示") now := by
    simp only [handle, ssrRender]
  rw [hb, renderTemplate_eq, flatten_bodyChunks, serverRenderMarkup, renderHtml]

theorem countSub_handle_body (url now : List Char) (hn1 : now ≠ [])
    (hnd : ∀ ch ∈ now, ch ∉ mountOpen) :
    countSub mountOpen ((handle ssrRender url now).body) =
      chunkCount mountOpen (bodyChunks (renderChunks (appTree (parsePathname url)))) := by
  rw [handle_ok_body]
  have hmo : mountOpen ≠ [] := by decide
  rw [countSub_mid hmo hn1
    ((bodyChunks (renderChunks (appTree (parsePathname url)))).flatten) tplTail hnd]
  rw [show countSub mountOpen tplTail = 0 by decide]
  rw [chunkCount_eq hmo]
  omega

theorem appTree_of_notFound {p : List Char} (h : matchRoute p = .notFound) :
    appTree p = appTree (str "*") := by
  have h1 : ¬ p = str "/" := by
    intro e
    rw [e] at h
    exact absurd h (by decide)
  have h2 : ¬ p = str "/about" := by
    intro e
    rw [e] at h
    exact absurd h (by decide)
  have h3 : ¬ p = str "/counter" := by
    intro e
    rw [e] at h
    exact absurd h (by decide)
  simp only [appTree, headerTree, headerNavItems, List.map, h,
    show matchRoute (str "*") = PageRoute.notFound by decide]
  simp [h1, h2, h3, show ¬ (str "*" = str "/") by decide,
    show ¬ (str "*" = str "/about") by decide,
    show ¬ (str "*" = str "/counter") by decide]

theorem serverMarkup_notFound_decomp {p : List Char} (h : matchRoute p = .notFound) :
    ∃ u v, renderHtml (appTree p) = u ++ renderHtml notFoundTree ++ v := by
  refine ⟨openTagChunk "div" [("class", "app")] ++ renderHtml (headerTree p) ++
    openTagChunk "main" [],
    closeTagChunk "main" ++ renderHtml footerTree ++ closeTagChunk "div", ?_⟩
  simp [appTree, h, renderHtml, renderChunks, renderChunksList,
    List.flatten_append, List.flatten_cons, List.append_assoc]

/-- C1: for every request path (and any nonempty injected timestamp
whose characters do not occur in the mount-point tag, as for ISO
timestamps), the handler returns status 200 with a complete HTML
document — it starts with the doctype and ends with `</html>` — whose
body contains exactly one occurrence of the mount-point opening tag
`<div id="root">`, and the rendered markup sits inside that element. -/
theorem handleMountPointUnique (url now : List Char) (hn1 : now ≠ [])
    (hnd : ∀ ch ∈ now, ch ∉ mountOpen) :
    (handle ssrRender url now).status = 200 ∧
    isPre (str "<!DOCTYPE html>") ((handle ssrRender url now).body) = true ∧
    (∃ pre, (handle ssrRender url now).body = pre ++ str "</html>") ∧
    countSub mountOpen ((handle ssrRender url now).body) = 1 ∧
    (∃ pre post, (handle ssrRender url now).body =
      pre ++ mountOpen ++ serverRenderMarkup url ++ mountClose ++ post) := by
  have hb : (handle ssrRender url now).body =
      renderTemplate (serverRenderMarkup url) (str "React SSR 教学演示") now := by
    simp only [handle, ssrRender]
  refine ⟨by simp only [handle, ssrRender], ?_, ?_, ?_, ?_⟩
  · rw [hb, renderTemplate_eq,
      show tplHead0a ++ tplHead0b ++ str "React SSR 教学演示" ++ tplHead1 ++ tplTitleOpen ++
          str "React SSR 教学演示" ++ tplTitleClose ++ tplMid ++ mountOpen ++
          serverRenderMarkup url ++ mountClose ++ tplDebug ++ now ++ tplTail =
        tplHead0a ++ (tplHead0b ++ str "React SSR 教学演示" ++ tplHead1 ++ tplTitleOpen ++
          str "React SSR 教学演示" ++ tplTitleClose ++ tplMid ++ mountOpen ++
          serverRenderMarkup url ++ mountClose ++ tplDebug ++ now ++ tplTail) by
        simp [List.append_assoc]]
    rw [isPre_append_eq_of_le _ (by decide)]
    decide
  · obtain ⟨y, hy⟩ : ∃ y, tplTail = y ++ str "</html>" :=
      ⟨List.take (tplTail.length - 7) tplTail, by decide⟩
    refine ⟨(bodyChunks (renderChunks (appTree (parsePathname url)))).flatten ++ now ++ y, ?_⟩
    rw [handle_ok_body, hy]
    simp only [List.append_assoc]
  · rw [countSub_handle_body url now hn1 hnd]
    by_cases h1 : parsePathname url = str "/"
    · rw [h1]
      decide
    · by_cases h2 : parsePathname url = str "/about"
      · rw [h2]
        decide
      · by_cases h3 : parsePathname url = str "/counter"
        · rw [h3]
          decide
        · have hnf : matchRoute (parsePathname url) = .notFound := by
            simp [matchRoute, h1, h2, h3]
          rw [appTree_of_notFound hnf]
          decide
  · refine ⟨tplHead0a ++ tplHead0b ++ str "React SSR 教学演示" ++ tplHead1 ++ tplTitleOpen ++
      str "React SSR 教学演示" ++ tplTitleClose ++ tplMid,
      tplDebug ++ now ++ tplTail, ?_⟩
    rw [hb, renderTemplate_eq]
    simp [List.append_assoc]

theorem handleMountPointUnique_witness :
    (str "2024-01-01T00:00:00.000Z" ≠ ([] : List Char)) ∧
    (∀ ch ∈ str "2024-01-01T00:00:00.000Z", ch ∉ mountOpen) ∧
    ((handle ssrRender (str "/about") (str "2024-01-01T00:00:00.000Z")).status = 200 ∧
      isPre (str "<!DOCTYPE html>")
        ((handle ssrRender (str "/about") (str "2024-01-01T00:00:00.000Z")).body) = true ∧
      (∃ pre, (handle ssrRender (str "/about") (str "2024-01-01T00:00:00.000Z")).body =
        pre ++ str "</html>") ∧
      countSub mountOpen
        ((handle ssrRender (str "/about") (str "2024-01-01T00:00:00.000Z")).body) = 1 ∧
      (∃ pre post, (handle ssrRender (str "/about") (str "2024-01-01T00:00:00.000Z")).body =
        pre ++ mountOpen ++ serverRenderMarkup (str "/about") ++ mountClose ++ post)) :=
  ⟨by decide, by decide,
    handleMountPointUnique (str "/about") (str "2024-01-01T00:00:00.000Z")
      (by decide) (by decide)⟩

/-- C5: for every request path that matches none of the configured
routes, the handler still answers 200 with a well-formed HTML document
produced by the normal render-and-template pipeline (the body is the
Template Assembler applied to the rendered markup), and the markup
placed in the mount point contains the `NotFound` view's markup. -/
theorem handleNotFoundDocument (url now : List Char)
    (hnf : matchRoute (parsePathname url) = .notFound)
    (hn1 : now ≠ []) (hnd : ∀ ch ∈ now, ch ∉ mountOpen) :
    (handle ssrRender url now).status = 200 ∧
    (handle ssrRender url now).body =
      renderTemplate (serverRenderMarkup url) (str "React SSR 教学演示") now ∧
    isPre (str "<!DOCTYPE html>") ((handle ssrRender url now).body) = true ∧
    (∃ pre, (handle ssrRender url now).body = pre ++ str "</html>") ∧
    (∃ pre post, (handle ssrRender url now).body =
      pre ++ mountOpen ++ serverRenderMarkup url ++ mountClose ++ post) ∧
    (∃ u v, serverRenderMarkup url = u ++ renderHtml notFoundTree ++ v) := by
  obtain ⟨hstatus, hdoctype, hsuffix, _, hmount⟩ := handleMountPointUnique url now hn1 hnd
  exact ⟨hstatus, by simp only [handle, ssrRender], hdoctype, hsuffix, hmount,
    serverMarkup_notFound_decomp hnf⟩

theorem handleNotFoundDocument_witness :
    (matchRoute (parsePathname (str "/no-such-page")) = .notFound) ∧
    ((handle ssrRender (str "/no-such-page") (str "2024-01-01T00:00:00.000Z")).status = 200 ∧
      (handle ssrRender (str "/no-such-page") (str "2024-01-01T00:00:00.000Z")).body =
        renderTemplate (serverRenderMarkup (str "/no-such-page"))
          (str "React SSR 教学演示") (str "2024-01-01T00:00:00.000Z") ∧
      isPre (str "<!DOCTYPE html>")
        ((handle ssrRender (str "/no-such-page") (str "2024-01-01T00:00:00.000Z")).body) = true ∧
      (∃ pre, (handle ssrRender (str "/no-such-page") (str "2024-01-01T00:00:00.000Z")).body =
        pre ++ str "</html>") ∧
      (∃ pre post,
        (handle ssrRender (str "/no-such-page") (str "2024-01-01T00:00:00.000Z")).body =
          pre ++ mountOpen ++ serverRenderMarkup (str "/no-such-page") ++ mountClose ++ post) ∧
      (∃ u v, serverRenderMarkup (str "/no-such-page") =
        u ++ renderHtml notFoundTree ++ v)) :=
  ⟨by decide,
    handleNotFoundDocument (str "/no-such-page") (str "2024-01-01T00:00:00.000Z")
      (by decide) (by decide) (by decide)⟩

end SSRDemo
